import Mathlib

/-!
Shallow embedding of the task-management backend (Convex `db` + `endpoints`
layers) and proofs about its claimed properties.

The Entity Store is modelled as association lists keyed by `Nat` ids with a
fresh-id counter; record insertion prepends (Convex lists by insertion order,
queried descending).  Each endpoint handler is a function from the store, the
resolved caller identity (`Option UserId`, the result of `getAuthUser`), the
rate-limiter decision and the call arguments to the new store paired with an
`Except` result; a thrown `Error` is an `Except.error` carrying the point of
detection, with the store as it was at that point.  `Date.now()` is a `now`
parameter.  JavaScript truthiness tests on optional arguments are modelled by
explicit `truthy*` helpers.
-/

deriving instance DecidableEq for Except

namespace TaskApp

abbrev UserId := String

inductive TaskStatus
  | pending
  | in_progress
  | completed
deriving DecidableEq, Repr

inductive TaskPriority
  | low
  | medium
  | high
deriving DecidableEq, Repr

/-- A stored task document (`tasks` table, `convex/schema.ts` /
`convex/db/tasks.ts`). -/
structure Task where
  userId : UserId
  title : String
  description : Option String
  status : TaskStatus
  priority : TaskPriority
  dueDate : Option Nat
  completedAt : Option Nat
  position : Int
  tags : Option (List String)
  createdAt : Nat
  updatedAt : Nat
deriving DecidableEq, Repr

inductive ActivityAction
  | created
  | updated
  | completed
  | deleted
  | status_changed
  | priority_changed
deriving DecidableEq, Repr

/-- The `changes` payload stored with `status_changed` / `priority_changed`
activity records (`{ from, to }` in the source). -/
inductive ActivityChanges
  | statusChange (fromStatus toStatus : TaskStatus)
  | priorityChange (fromPriority toPriority : TaskPriority)
deriving DecidableEq, Repr

/-- A stored task-activity document (`taskActivity` table). -/
structure ActivityRecord where
  taskId : Nat
  userId : UserId
  action : ActivityAction
  changes : Option ActivityChanges
  createdAt : Nat
deriving DecidableEq, Repr

/-- A stored task-comment document (`taskComments` table). -/
structure TaskComment where
  taskId : Nat
  userId : UserId
  content : String
  createdAt : Nat
  updatedAt : Nat
deriving DecidableEq, Repr

inductive Theme
  | light
  | dark
  | system
deriving DecidableEq, Repr

inductive DefaultView
  | list
  | kanban
deriving DecidableEq, Repr

inductive SortBy
  | createdAt
  | dueDate
  | priority
  | position
deriving DecidableEq, Repr

inductive SortOrder
  | asc
  | desc
deriving DecidableEq, Repr

/-- A stored user-preferences document (`userPreferences` table). -/
structure UserPreferences where
  userId : UserId
  theme : Theme
  defaultView : DefaultView
  sortBy : SortBy
  sortOrder : SortOrder
  showCompletedTasks : Bool
  notificationsEnabled : Bool
  createdAt : Nat
  updatedAt : Nat
deriving DecidableEq, Repr

/-- The Entity Store: one association list per table (newest entry first,
matching the store's descending insertion order) and a fresh-id counter. -/
structure DB where
  tasks : List (Nat × Task)
  taskActivity : List (Nat × ActivityRecord)
  taskComments : List (Nat × TaskComment)
  userPreferences : List (Nat × UserPreferences)
  nextId : Nat
deriving DecidableEq, Repr

/-- Result of `rateLimiter.limit`: an allow/deny decision and, on deny, a
retry-after duration. -/
structure RateLimitStatus where
  ok : Bool
  retryAfter : Nat
deriving DecidableEq, Repr

/-- The caller-visible error taxonomy (each `throw new Error(...)` in the
endpoint and db layers is mapped to the matching constructor). -/
inductive Err
  | notAuthenticated
  | rateLimited (retryAfter : Nat)
  | notFound
  | unauthorized
  | validationFailed (msg : String)
deriving DecidableEq, Repr

/-- Whether an `Except` result is a success. -/
def exceptIsOk {α : Type} : Except Err α → Bool
  | Except.ok _ => true
  | Except.error _ => false

-- ========================================
-- JavaScript truthiness of optional arguments
-- ========================================

/-- Truthiness of an optional string argument: present and non-empty. -/
def truthyOptStr : Option String → Bool
  | none => false
  | some s => !(s == "")

/-- Truthiness of an optional numeric argument: present and non-zero. -/
def truthyOptNat : Option Nat → Bool
  | none => false
  | some n => !(n == 0)

-- ========================================
-- convex/helpers/validation.ts
-- ========================================

/-- Model of JavaScript `String.prototype.trim`: strip leading and trailing
whitespace (written over the character list so that it evaluates). -/
def jsTrim (s : String) : String :=
  String.mk
    (((s.data.dropWhile Char.isWhitespace).reverse.dropWhile
        Char.isWhitespace).reverse)

/-- `isValidTaskTitle`: non-empty after trim and at most 200 characters. -/
def isValidTaskTitle (title : String) : Bool :=
  decide (0 < (jsTrim title).length) && decide (title.length ≤ 200)

/-- `isValidTaskDescription`: a falsy (absent or empty) description is valid,
otherwise at most 2000 characters. -/
def isValidTaskDescription : Option String → Bool
  | none => true
  | some d => if d == "" then true else decide (d.length ≤ 2000)

/-- `isValidDueDate`: unless past dates are allowed, the date must not be
before `now`. -/
def isValidDueDate (dueDate : Nat) (now : Nat) (allowPast : Bool) : Bool :=
  if !allowPast && decide (dueDate < now) then false else true

/-- `isValidTaskTags`: at most 10 tags, each non-empty after trim and at most
50 characters. -/
def isValidTaskTags : Option (List String) → Bool
  | none => true
  | some tags =>
      decide (tags.length ≤ 10) &&
        tags.all (fun tag =>
          decide (0 < (jsTrim tag).length) && decide (tag.length ≤ 50))

/-- `isValidCommentContent`: non-empty after trim and at most 1000 characters. -/
def isValidCommentContent (content : String) : Bool :=
  decide (0 < (jsTrim content).length) && decide (content.length ≤ 1000)

/-- Result of `validateTaskInput`. -/
structure TaskValidationResult where
  valid : Bool
  errors : List String
deriving DecidableEq, Repr

/-- Argument shape of `validateTaskInput`. -/
structure TaskInput where
  title : String
  description : Option String
  dueDate : Option Nat
  tags : Option (List String)
deriving DecidableEq, Repr

/-- `validateTaskInput`: checks each constraint and collects every failing
rule's message (the due-date rule only fires on a truthy due date). -/
def validateTaskInput (input : TaskInput) (now : Nat) : TaskValidationResult :=
  let errors : List String :=
    (if !isValidTaskTitle input.title then
      ["Title must be between 1 and 200 characters"] else []) ++
    (if !isValidTaskDescription input.description then
      ["Description must be max 2000 characters"] else []) ++
    (if truthyOptNat input.dueDate &&
        !isValidDueDate (input.dueDate.getD 0) now false then
      ["Due date must be in the future"] else []) ++
    (if !isValidTaskTags input.tags then
      ["Tags must be max 50 characters each, max 10 tags"] else [])
  { valid := errors.length == 0, errors := errors }

-- ========================================
-- convex/db/tasks.ts (Record Access layer)
-- ========================================

/-- Argument shape of the db-layer `createTask`. -/
structure CreateTaskArgs where
  userId : UserId
  title : String
  description : Option String
  status : Option TaskStatus
  priority : Option TaskPriority
  dueDate : Option Nat
  position : Int
  tags : Option (List String)
deriving DecidableEq, Repr

/-- Argument shape of the db-layer `updateTask` (a partial patch: `none`
means the field is not provided and the stored value is kept). -/
structure UpdateTaskArgs where
  title : Option String
  description : Option String
  status : Option TaskStatus
  priority : Option TaskPriority
  dueDate : Option Nat
  completedAt : Option Nat
  position : Option Int
  tags : Option (List String)
deriving DecidableEq, Repr

/-- The all-absent patch. -/
def emptyPatch : UpdateTaskArgs :=
  { title := none, description := none, status := none, priority := none,
    dueDate := none, completedAt := none, position := none, tags := none }

/-- `createTask`: insert a new task with `status ?? "pending"`,
`priority ?? "medium"`, server-side timestamps, and no completion time. -/
def createTask (db : DB) (args : CreateTaskArgs) (now : Nat) : DB × Nat :=
  let task : Task :=
    { userId := args.userId, title := args.title,
      description := args.description,
      status := args.status.getD TaskStatus.pending,
      priority := args.priority.getD TaskPriority.medium,
      dueDate := args.dueDate, completedAt := none,
      position := args.position, tags := args.tags,
      createdAt := now, updatedAt := now }
  ({ db with tasks := (db.nextId, task) :: db.tasks, nextId := db.nextId + 1 },
    db.nextId)

/-- `getTaskById`: `ctx.db.get` — `none` when the id is absent. -/
def getTaskById (db : DB) (id : Nat) : Option Task :=
  (db.tasks.find? (fun p => p.1 == id)).map Prod.snd

/-- `getTasksByUser`: every task entry of the user, descending insertion
order (the store list is already newest-first). -/
def getTasksByUser (db : DB) (userId : UserId) : List (Nat × Task) :=
  db.tasks.filter (fun p => p.2.userId == userId)

/-- `getTasksByUserAndStatus`. -/
def getTasksByUserAndStatus (db : DB) (userId : UserId) (status : TaskStatus) :
    List (Nat × Task) :=
  db.tasks.filter (fun p => p.2.userId == userId && p.2.status == status)

/-- `getTaskCountByUserAndStatus`. -/
def getTaskCountByUserAndStatus (db : DB) (userId : UserId)
    (status : TaskStatus) : Nat :=
  (getTasksByUserAndStatus db userId status).length

/-- `getMaxPositionForUser`: 0 when the user has no tasks, otherwise the
maximum stored position (`Math.max` over the user's tasks). -/
def getMaxPositionForUser (db : DB) (userId : UserId) : Int :=
  match (getTasksByUser db userId).map (fun p => p.2.position) with
  | [] => 0
  | p :: ps => ps.foldl max p

/-- A patch field: a provided value replaces the stored one, an absent one
keeps it. -/
def patchField {α : Type} (arg : Option α) (old : α) : α :=
  match arg with
  | none => old
  | some v => v

/-- A patch field over an optional stored column. -/
def patchOptField {α : Type} (arg : Option α) (old : Option α) : Option α :=
  match arg with
  | none => old
  | some v => some v

/-- Apply a db-layer patch to a stored task, refreshing `updatedAt`. -/
def applyTaskPatch (t : Task) (args : UpdateTaskArgs) (now : Nat) : Task :=
  { t with
    title := patchField args.title t.title,
    description := patchOptField args.description t.description,
    status := patchField args.status t.status,
    priority := patchField args.priority t.priority,
    dueDate := patchOptField args.dueDate t.dueDate,
    completedAt := patchOptField args.completedAt t.completedAt,
    position := patchField args.position t.position,
    tags := patchOptField args.tags t.tags,
    updatedAt := now }

/-- `updateTask`: `ctx.db.patch` of the provided fields plus `updatedAt`. -/
def updateTask (db : DB) (id : Nat) (args : UpdateTaskArgs) (now : Nat) : DB :=
  { db with
    tasks := db.tasks.map
      (fun p => if p.1 == id then (p.1, applyTaskPatch p.2 args now) else p) }

/-- `completeTask`: patch `status := completed`, `completedAt := now`,
`updatedAt := now`. -/
def completeTask (db : DB) (id : Nat) (now : Nat) : DB :=
  { db with
    tasks := db.tasks.map
      (fun p =>
        if p.1 == id then
          (p.1,
            { p.2 with
              status := TaskStatus.completed,
              completedAt := some now,
              updatedAt := now })
        else p) }

/-- `updateTaskPosition`: patch `position` plus `updatedAt`. -/
def updateTaskPosition (db : DB) (id : Nat) (newPosition : Int) (now : Nat) :
    DB :=
  { db with
    tasks := db.tasks.map
      (fun p =>
        if p.1 == id then
          (p.1, { p.2 with position := newPosition, updatedAt := now })
        else p) }

/-- `batchUpdateTaskPositions`: one position patch per entry, all stamped
with the same `now` (the store's per-record atomicity makes the order
immaterial; modelled as a left fold). -/
def batchUpdateTaskPositions (db : DB) (updates : List (Nat × Int))
    (now : Nat) : DB :=
  updates.foldl (fun d u => updateTaskPosition d u.1 u.2 now) db

/-- `deleteTask`: `ctx.db.delete`. -/
def deleteTask (db : DB) (id : Nat) : DB :=
  { db with tasks := db.tasks.filter (fun p => !(p.1 == id)) }

/-- `deleteCompletedTasksByUser`: delete every completed task of the user and
return how many there were.  No activity record is written here. -/
def deleteCompletedTasksByUser (db : DB) (userId : UserId) : DB × Nat :=
  let completedTasks := getTasksByUserAndStatus db userId TaskStatus.completed
  (completedTasks.foldl (fun d p => deleteTask d p.1) db, completedTasks.length)

-- ========================================
-- convex/db/taskActivity.ts
-- ========================================

/-- Argument shape of `createTaskActivity`. -/
structure CreateTaskActivityArgs where
  taskId : Nat
  userId : UserId
  action : ActivityAction
  changes : Option ActivityChanges
deriving DecidableEq, Repr

/-- `createTaskActivity`: insert a new activity record stamped `now`. -/
def createTaskActivity (db : DB) (args : CreateTaskActivityArgs) (now : Nat) :
    DB × Nat :=
  let record : ActivityRecord :=
    { taskId := args.taskId, userId := args.userId, action := args.action,
      changes := args.changes, createdAt := now }
  ({ db with taskActivity := (db.nextId, record) :: db.taskActivity,
             nextId := db.nextId + 1 },
    db.nextId)

-- ========================================
-- convex/db/taskComments.ts
-- ========================================

/-- `createTaskComment`. -/
def createTaskComment (db : DB) (taskId : Nat) (userId : UserId)
    (content : String) (now : Nat) : DB × Nat :=
  let comment : TaskComment :=
    { taskId := taskId, userId := userId, content := content,
      createdAt := now, updatedAt := now }
  ({ db with taskComments := (db.nextId, comment) :: db.taskComments,
             nextId := db.nextId + 1 },
    db.nextId)

/-- `getTaskCommentById`: `none` when the id is absent. -/
def getTaskCommentById (db : DB) (id : Nat) : Option TaskComment :=
  (db.taskComments.find? (fun p => p.1 == id)).map Prod.snd

/-- `updateTaskComment`: patch `content` plus `updatedAt`. -/
def updateTaskComment (db : DB) (id : Nat) (content : String) (now : Nat) :
    DB :=
  { db with
    taskComments := db.taskComments.map
      (fun p =>
        if p.1 == id then (p.1, { p.2 with content := content, updatedAt := now })
        else p) }

/-- `deleteTaskComment`. -/
def deleteTaskComment (db : DB) (id : Nat) : DB :=
  { db with taskComments := db.taskComments.filter (fun p => !(p.1 == id)) }

-- ========================================
-- convex/db/userPreferences.ts
-- ========================================

/-- Argument shape of the db-layer preferences patch. -/
structure UpdateUserPreferencesArgs where
  theme : Option Theme
  defaultView : Option DefaultView
  sortBy : Option SortBy
  sortOrder : Option SortOrder
  showCompletedTasks : Option Bool
  notificationsEnabled : Option Bool
deriving DecidableEq, Repr

/-- `getUserPreferencesByUser`: `.first()` on the user's index — `none`
when the user has no preferences record. -/
def getUserPreferencesByUser (db : DB) (userId : UserId) :
    Option (Nat × UserPreferences) :=
  (db.userPreferences.filter (fun p => p.2.userId == userId)).head?

/-- `updateUserPreferences`: patch the provided fields plus `updatedAt`. -/
def updateUserPreferences (db : DB) (id : Nat)
    (args : UpdateUserPreferencesArgs) (now : Nat) : DB :=
  { db with
    userPreferences := db.userPreferences.map
      (fun p =>
        if p.1 == id then
          (p.1, { p.2 with
            theme := args.theme.getD p.2.theme,
            defaultView := args.defaultView.getD p.2.defaultView,
            sortBy := args.sortBy.getD p.2.sortBy,
            sortOrder := args.sortOrder.getD p.2.sortOrder,
            showCompletedTasks := args.showCompletedTasks.getD p.2.showCompletedTasks,
            notificationsEnabled := args.notificationsEnabled.getD p.2.notificationsEnabled,
            updatedAt := now })
        else p) }

/-- `updateUserPreferencesByUser`: looks the record up by user and, when it is
absent, throws `User preferences not found` — the one Record Access function
that raises a domain error instead of returning a null/empty result. -/
def updateUserPreferencesByUser (db : DB) (userId : UserId)
    (args : UpdateUserPreferencesArgs) (now : Nat) : Except Err DB :=
  match getUserPreferencesByUser db userId with
  | none => Except.error Err.notFound
  | some p => Except.ok (updateUserPreferences db p.1 args now)

-- ========================================
-- convex/endpoints/tasks.ts (Business/Endpoint layer)
-- ========================================

/-- Argument shape of the `create` mutation. -/
structure CreateArgs where
  title : String
  description : Option String
  priority : Option TaskPriority
  dueDate : Option Nat
  tags : Option (List String)
deriving DecidableEq, Repr

/-- Argument shape of the `update` mutation. -/
structure UpdateArgs where
  id : Nat
  title : Option String
  description : Option String
  status : Option TaskStatus
  priority : Option TaskPriority
  dueDate : Option Nat
  tags : Option (List String)
deriving DecidableEq, Repr

/-- `tasks.create`: authenticate, rate-limit, validate, read the caller's
maximum position, insert at `maxPosition + 1`, log a `created` activity. -/
def create (db : DB) (auth : Option UserId) (rl : RateLimitStatus)
    (args : CreateArgs) (now : Nat) : DB × Except Err Nat :=
  match auth with
  | none => (db, Except.error Err.notAuthenticated)
  | some userId =>
    if !rl.ok then (db, Except.error (Err.rateLimited rl.retryAfter))
    else
      let validation := validateTaskInput
        { title := args.title, description := args.description,
          dueDate := args.dueDate, tags := args.tags } now
      if !validation.valid then
        (db, Except.error (Err.validationFailed
          (String.intercalate ", " validation.errors)))
      else
        let maxPosition := getMaxPositionForUser db userId
        let created := createTask db
          { userId := userId, title := args.title,
            description := args.description, status := none,
            priority := args.priority, dueDate := args.dueDate,
            position := maxPosition + 1, tags := args.tags } now
        let logged := createTaskActivity created.1
          { taskId := created.2, userId := userId,
            action := ActivityAction.created, changes := none } now
        (logged.1, Except.ok created.2)

/-- The title that `tasks.update` validates: `args.title || task.title` —
a provided non-empty title, otherwise the stored one (so an empty-string
title argument falls back to the stored title for validation). -/
def effectiveTitle (argTitle : Option String) (t : Task) : String :=
  match argTitle with
  | none => t.title
  | some s => if s == "" then t.title else s

/-- Whether `tasks.update` runs validation at all:
`args.title || args.description || args.dueDate || args.tags`
under JavaScript truthiness (an array is truthy even when empty). -/
def updateRunsValidation (args : UpdateArgs) : Bool :=
  truthyOptStr args.title || truthyOptStr args.description ||
    truthyOptNat args.dueDate || args.tags.isSome

/-- The activity append performed at the end of a successful `tasks.update`:
`completed` whenever the status argument is `completed`, else
`status_changed` / `priority_changed` on an actual change, else `updated`. -/
def updateActivityArgs (id : Nat) (userId : UserId) (args : UpdateArgs)
    (t : Task) : CreateTaskActivityArgs :=
  if args.status == some TaskStatus.completed then
    { taskId := id, userId := userId, action := ActivityAction.completed,
      changes := none }
  else
    match args.status with
    | some s =>
      if s == t.status then
        match args.priority with
        | some p =>
          if p == t.priority then
            { taskId := id, userId := userId,
              action := ActivityAction.updated, changes := none }
          else
            { taskId := id, userId := userId,
              action := ActivityAction.priority_changed,
              changes := some (ActivityChanges.priorityChange t.priority p) }
        | none =>
          { taskId := id, userId := userId,
            action := ActivityAction.updated, changes := none }
      else
        { taskId := id, userId := userId,
          action := ActivityAction.status_changed,
          changes := some (ActivityChanges.statusChange t.status s) }
    | none =>
      match args.priority with
      | some p =>
        if p == t.priority then
          { taskId := id, userId := userId,
            action := ActivityAction.updated, changes := none }
        else
          { taskId := id, userId := userId,
            action := ActivityAction.priority_changed,
            changes := some (ActivityChanges.priorityChange t.priority p) }
      | none =>
        { taskId := id, userId := userId,
          action := ActivityAction.updated, changes := none }

/-- `tasks.update`: authenticate, rate-limit, fetch and ownership-check the
task, conditionally validate, patch (setting `completedAt` only on a
transition into `completed`), and log exactly one activity record. -/
def update (db : DB) (auth : Option UserId) (rl : RateLimitStatus)
    (args : UpdateArgs) (now : Nat) : DB × Except Err Nat :=
  match auth with
  | none => (db, Except.error Err.notAuthenticated)
  | some userId =>
    if !rl.ok then (db, Except.error (Err.rateLimited rl.retryAfter))
    else
      match getTaskById db args.id with
      | none => (db, Except.error Err.notFound)
      | some task =>
        if !(task.userId == userId) then (db, Except.error Err.unauthorized)
        else
          let validation := validateTaskInput
            { title := effectiveTitle args.title task,
              description := args.description,
              dueDate := args.dueDate, tags := args.tags } now
          if updateRunsValidation args && !validation.valid then
            (db, Except.error (Err.validationFailed
              (String.intercalate ", " validation.errors)))
          else
            let completedAtPatch : Option Nat :=
              if args.status == some TaskStatus.completed &&
                  !(task.status == TaskStatus.completed) then some now
              else none
            let db1 := updateTask db args.id
              { title := args.title, description := args.description,
                status := args.status, priority := args.priority,
                dueDate := args.dueDate, completedAt := completedAtPatch,
                position := none, tags := args.tags } now
            let logged := createTaskActivity db1
              (updateActivityArgs args.id userId args task) now
            (logged.1, Except.ok args.id)

/-- `tasks.complete`: authenticate, rate-limit, fetch and ownership-check the
task, mark it completed, log a `completed` activity. -/
def complete (db : DB) (auth : Option UserId) (rl : RateLimitStatus)
    (id : Nat) (now : Nat) : DB × Except Err Nat :=
  match auth with
  | none => (db, Except.error Err.notAuthenticated)
  | some userId =>
    if !rl.ok then (db, Except.error (Err.rateLimited rl.retryAfter))
    else
      match getTaskById db id with
      | none => (db, Except.error Err.notFound)
      | some task =>
        if !(task.userId == userId) then (db, Except.error Err.unauthorized)
        else
          let db1 := completeTask db id now
          let logged := createTaskActivity db1
            { taskId := id, userId := userId,
              action := ActivityAction.completed, changes := none } now
          (logged.1, Except.ok id)

/-- The ownership loop of `tasks.reorder`: every referenced task is fetched
and checked before any write. -/
def checkReorder (db : DB) (userId : UserId) :
    List (Nat × Int) → Except Err Unit
  | [] => Except.ok ()
  | u :: rest =>
    match getTaskById db u.1 with
    | none => Except.error Err.notFound
    | some task =>
      if !(task.userId == userId) then Except.error Err.unauthorized
      else checkReorder db userId rest

/-- `tasks.reorder`: authenticate, rate-limit, check ownership of the whole
batch, then write every position. -/
def reorder (db : DB) (auth : Option UserId) (rl : RateLimitStatus)
    (updates : List (Nat × Int)) (now : Nat) : DB × Except Err Bool :=
  match auth with
  | none => (db, Except.error Err.notAuthenticated)
  | some userId =>
    if !rl.ok then (db, Except.error (Err.rateLimited rl.retryAfter))
    else
      match checkReorder db userId updates with
      | Except.error e => (db, Except.error e)
      | Except.ok _ => (batchUpdateTaskPositions db updates now, Except.ok true)

/-- `tasks.remove`: authenticate, rate-limit, fetch and ownership-check the
task, log a `deleted` activity *before* deleting, then delete. -/
def remove (db : DB) (auth : Option UserId) (rl : RateLimitStatus)
    (id : Nat) (now : Nat) : DB × Except Err Bool :=
  match auth with
  | none => (db, Except.error Err.notAuthenticated)
  | some userId =>
    if !rl.ok then (db, Except.error (Err.rateLimited rl.retryAfter))
    else
      match getTaskById db id with
      | none => (db, Except.error Err.notFound)
      | some task =>
        if !(task.userId == userId) then (db, Except.error Err.unauthorized)
        else
          let logged := createTaskActivity db
            { taskId := id, userId := userId,
              action := ActivityAction.deleted, changes := none } now
          (deleteTask logged.1 id, Except.ok true)

/-- `tasks.deleteCompleted`: authenticate, rate-limit, then bulk-delete the
caller's completed tasks.  It writes no activity record. -/
def deleteCompleted (db : DB) (auth : Option UserId) (rl : RateLimitStatus) :
    DB × Except Err Nat :=
  match auth with
  | none => (db, Except.error Err.notAuthenticated)
  | some userId =>
    if !rl.ok then (db, Except.error (Err.rateLimited rl.retryAfter))
    else
      let deleted := deleteCompletedTasksByUser db userId
      (deleted.1, Except.ok deleted.2)

-- ========================================
-- Comment endpoints ("Endpoint Layer: Task Comments", the second document
-- concatenated into convex/endpoints/agent.ts)
-- ========================================

/-- `comments.create` (from the Task Comments endpoint document in
`convex/endpoints/agent.ts`): authenticate, rate-limit, fetch the parent
task, fail not-found on absence and unauthorized on a non-matching owner,
validate the content, then insert the comment.  Named `commentsCreate` here
because the source file's `create` would collide with the task endpoint. -/
def commentsCreate (db : DB) (auth : Option UserId) (rl : RateLimitStatus)
    (taskId : Nat) (content : String) (now : Nat) : DB × Except Err Nat :=
  match auth with
  | none => (db, Except.error Err.notAuthenticated)
  | some userId =>
    if !rl.ok then (db, Except.error (Err.rateLimited rl.retryAfter))
    else
      match getTaskById db taskId with
      | none => (db, Except.error Err.notFound)
      | some task =>
        if !(task.userId == userId) then (db, Except.error Err.unauthorized)
        else if !isValidCommentContent content then
          (db, Except.error (Err.validationFailed
            "Comment content must be between 1 and 1000 characters"))
        else
          let created := createTaskComment db taskId userId content now
          (created.1, Except.ok created.2)

/-- `comments.update` (from the Task Comments endpoint document in
`convex/endpoints/agent.ts`): authenticate, rate-limit, fetch the comment,
fail not-found on absence and unauthorized on a non-matching author,
validate the content, then patch it. -/
def commentsUpdate (db : DB) (auth : Option UserId) (rl : RateLimitStatus)
    (id : Nat) (content : String) (now : Nat) : DB × Except Err Nat :=
  match auth with
  | none => (db, Except.error Err.notAuthenticated)
  | some userId =>
    if !rl.ok then (db, Except.error (Err.rateLimited rl.retryAfter))
    else
      match getTaskCommentById db id with
      | none => (db, Except.error Err.notFound)
      | some comment =>
        if !(comment.userId == userId) then (db, Except.error Err.unauthorized)
        else if !isValidCommentContent content then
          (db, Except.error (Err.validationFailed
            "Comment content must be between 1 and 1000 characters"))
        else
          (updateTaskComment db id content now, Except.ok id)

/-- `comments.remove` (from the Task Comments endpoint document in
`convex/endpoints/agent.ts`): authenticate, rate-limit, fetch the comment,
fail not-found on absence and unauthorized on a non-matching author, then
delete it. -/
def commentsRemove (db : DB) (auth : Option UserId) (rl : RateLimitStatus)
    (id : Nat) : DB × Except Err Bool :=
  match auth with
  | none => (db, Except.error Err.notAuthenticated)
  | some userId =>
    if !rl.ok then (db, Except.error (Err.rateLimited rl.retryAfter))
    else
      match getTaskCommentById db id with
      | none => (db, Except.error Err.notFound)
      | some comment =>
        if !(comment.userId == userId) then (db, Except.error Err.unauthorized)
        else
          (deleteTaskComment db id, Except.ok true)

-- ========================================
-- Derived notions and concrete fixtures
-- ========================================

/-- Boolean form of the spec's completion invariant: `completedAt` is set if
and only if the status is `completed`. -/
def completedAtInvariantB (t : Task) : Bool :=
  t.completedAt.isSome == decide (t.status = TaskStatus.completed)

/-- An update-call argument that only sets the status. -/
def statusOnlyUpdate (id : Nat) (s : TaskStatus) : UpdateArgs :=
  { id := id, title := none, description := none, status := some s,
    priority := none, dueDate := none, tags := none }

/-- An update-call argument whose only provided field is an empty title. -/
def emptyTitleUpdate (id : Nat) : UpdateArgs :=
  { id := id, title := some "", description := none, status := none,
    priority := none, dueDate := none, tags := none }

/-- The all-absent preferences patch. -/
def emptyPrefsPatch : UpdateUserPreferencesArgs :=
  { theme := none, defaultView := none, sortBy := none, sortOrder := none,
    showCompletedTasks := none, notificationsEnabled := none }

/-- An allowing rate-limiter decision. -/
def rlOk : RateLimitStatus := { ok := true, retryAfter := 0 }

/-- A denying rate-limiter decision with a 250ms retry-after. -/
def rlDeny : RateLimitStatus := { ok := false, retryAfter := 250 }

/-- The empty store. -/
def emptyDB : DB :=
  { tasks := [], taskActivity := [], taskComments := [],
    userPreferences := [], nextId := 0 }

/-- A completed task owned by `alice`, completed at time 5. -/
def aliceDoneTask : Task :=
  { userId := "alice", title := "Buy milk", description := none,
    status := TaskStatus.completed, priority := TaskPriority.high,
    dueDate := none, completedAt := some 5, position := 1, tags := none,
    createdAt := 1, updatedAt := 5 }

/-- A store holding exactly `aliceDoneTask` under id 0. -/
def dbAliceDone : DB :=
  { tasks := [(0, aliceDoneTask)], taskActivity := [], taskComments := [],
    userPreferences := [], nextId := 1 }

/-- A pending task owned by `alice`. -/
def alicePendingTask : Task :=
  { userId := "alice", title := "Hello", description := none,
    status := TaskStatus.pending, priority := TaskPriority.medium,
    dueDate := none, completedAt := none, position := 1, tags := none,
    createdAt := 1, updatedAt := 1 }

/-- A store holding exactly `alicePendingTask` under id 0. -/
def dbAlicePending : DB :=
  { tasks := [(0, alicePendingTask)], taskActivity := [], taskComments := [],
    userPreferences := [], nextId := 1 }

/-- A comment by `bob` on task 0, stored under id 1 in a store whose task 0
is also owned by `bob`. -/
def bobComment : TaskComment :=
  { taskId := 0, userId := "bob", content := "hi", createdAt := 2,
    updatedAt := 2 }

/-- A pending task owned by `bob`. -/
def bobPendingTask : Task :=
  { userId := "bob", title := "Bob task", description := none,
    status := TaskStatus.pending, priority := TaskPriority.medium,
    dueDate := none, completedAt := none, position := 1, tags := none,
    createdAt := 1, updatedAt := 1 }

/-- A store holding `bobPendingTask` under id 0 and `bobComment` under id 1. -/
def dbBobOwned : DB :=
  { tasks := [(0, bobPendingTask)], taskActivity := [],
    taskComments := [(1, bobComment)], userPreferences := [], nextId := 2 }

-- ========================================
-- Helper lemmas about the Record Access layer
-- ========================================

theorem taskActivity_updateTask (db : DB) (id : Nat) (args : UpdateTaskArgs)
    (now : Nat) : (updateTask db id args now).taskActivity = db.taskActivity :=
  rfl

theorem nextId_updateTask (db : DB) (id : Nat) (args : UpdateTaskArgs)
    (now : Nat) : (updateTask db id args now).nextId = db.nextId :=
  rfl

theorem tasks_createTaskActivity (db : DB) (args : CreateTaskActivityArgs)
    (now : Nat) : (createTaskActivity db args now).1.tasks = db.tasks :=
  rfl

theorem taskActivity_createTaskActivity (db : DB)
    (args : CreateTaskActivityArgs) (now : Nat) :
    (createTaskActivity db args now).1.taskActivity =
      (db.nextId,
        { taskId := args.taskId, userId := args.userId, action := args.action,
          changes := args.changes, createdAt := now }) :: db.taskActivity :=
  rfl

theorem taskActivity_deleteTask (db : DB) (id : Nat) :
    (deleteTask db id).taskActivity = db.taskActivity :=
  rfl

/-- A keyed in-place map of an association list commutes with keyed lookup. -/
theorem find?_map_keyed (l : List (Nat × Task)) (id : Nat) (g : Task → Task) :
    ((l.map (fun p => if p.1 == id then (p.1, g p.2) else p)).find?
        (fun p => p.1 == id)).map Prod.snd =
      ((l.find? (fun p => p.1 == id)).map Prod.snd).map g := by
  induction l with
  | nil => rfl
  | cons p ps ih =>
    by_cases h : p.1 = id
    · simp [List.find?, h]
    · simp only [List.map_cons]
      rw [if_neg (by simp [h]), List.find?_cons_of_neg, List.find?_cons_of_neg]
      · exact ih
      · simp [h]
      · simp [h]

/-- Looking a task up after a db-layer patch of the same id yields the
patched task. -/
theorem getTaskById_updateTask (db : DB) (id : Nat) (args : UpdateTaskArgs)
    (now : Nat) :
    getTaskById (updateTask db id args now) id =
      (getTaskById db id).map (fun t => applyTaskPatch t args now) := by
  unfold getTaskById updateTask
  exact find?_map_keyed db.tasks id (fun t => applyTaskPatch t args now)

/-- Looking a task up after `completeTask` of the same id yields the task
with `status := completed`, `completedAt := now`, `updatedAt := now`. -/
theorem getTaskById_completeTask (db : DB) (id : Nat) (now : Nat) :
    getTaskById (completeTask db id now) id =
      (getTaskById db id).map
        (fun t =>
          { t with status := TaskStatus.completed, completedAt := some now,
                   updatedAt := now }) := by
  unfold getTaskById completeTask
  exact find?_map_keyed db.tasks id
    (fun t =>
      { t with status := TaskStatus.completed, completedAt := some now,
               updatedAt := now })

theorem getTaskById_createTaskActivity (db : DB)
    (args : CreateTaskActivityArgs) (now : Nat) (id : Nat) :
    getTaskById (createTaskActivity db args now).1 id = getTaskById db id :=
  rfl

-- ========================================
-- Helper lemmas about the endpoint layer
-- ========================================

/-- The db-layer patch issued by a successful `tasks.update`. -/
def updatePatchArgs (args : UpdateArgs) (t : Task) (now : Nat) :
    UpdateTaskArgs :=
  { title := args.title, description := args.description,
    status := args.status, priority := args.priority,
    dueDate := args.dueDate,
    completedAt :=
      if args.status == some TaskStatus.completed &&
          !(t.status == TaskStatus.completed) then some now
      else none,
    position := none, tags := args.tags }

/-- When the guards pass, `tasks.update` patches the task and logs one
activity record. -/
theorem update_success_shape (db : DB) (u : UserId) (rl : RateLimitStatus)
    (args : UpdateArgs) (now : Nat) (t : Task)
    (hrl : rl.ok = true)
    (hpre : getTaskById db args.id = some t)
    (how : t.userId = u)
    (hval : (updateRunsValidation args &&
      !(validateTaskInput
          { title := effectiveTitle args.title t,
            description := args.description,
            dueDate := args.dueDate, tags := args.tags } now).valid) = false) :
    update db (some u) rl args now =
      ((createTaskActivity
          (updateTask db args.id (updatePatchArgs args t now) now)
          (updateActivityArgs args.id u args t) now).1,
        Except.ok args.id) := by
  simp only [update, hrl, Bool.not_true, Bool.false_eq_true, if_false, hpre,
    how, beq_self_eq_true, if_true, updatePatchArgs]
  rw [if_neg]
  simp [hval]

/-- A successful `tasks.update` implies the guards passed. -/
theorem update_ok_inv (db : DB) (u : UserId) (rl : RateLimitStatus)
    (args : UpdateArgs) (now : Nat)
    (hok : exceptIsOk (update db (some u) rl args now).2 = true) :
    rl.ok = true ∧
      ∃ t, getTaskById db args.id = some t ∧ t.userId = u ∧
        (updateRunsValidation args &&
          !(validateTaskInput
              { title := effectiveTitle args.title t,
                description := args.description,
                dueDate := args.dueDate, tags := args.tags } now).valid)
          = false := by
  by_cases hrl : rl.ok
  · refine ⟨hrl, ?_⟩
    cases hg : getTaskById db args.id with
    | none =>
      exfalso
      simp [update, hrl, hg, exceptIsOk] at hok
    | some t =>
      refine ⟨t, rfl, ?_, ?_⟩
      · by_cases how : t.userId = u
        · exact how
        · exfalso
          simp [update, hrl, hg, how, exceptIsOk] at hok
      · by_cases hval : (updateRunsValidation args &&
          !(validateTaskInput
              { title := effectiveTitle args.title t,
                description := args.description,
                dueDate := args.dueDate, tags := args.tags } now).valid) = false
        · exact hval
        · exfalso
          rw [Bool.not_eq_false] at hval
          by_cases how : t.userId = u
          · simp [update, hrl, hg, how, hval, exceptIsOk] at hok
          · simp [update, hrl, hg, how, exceptIsOk] at hok
  · exfalso
    simp [update, hrl, exceptIsOk] at hok

/-- When the guards pass, `tasks.complete` marks the task completed and logs
one `completed` activity record. -/
theorem complete_success_shape (db : DB) (u : UserId) (rl : RateLimitStatus)
    (id : Nat) (now : Nat) (t : Task)
    (hrl : rl.ok = true)
    (hpre : getTaskById db id = some t)
    (how : t.userId = u) :
    complete db (some u) rl id now =
      ((createTaskActivity (completeTask db id now)
          { taskId := id, userId := u, action := ActivityAction.completed,
            changes := none } now).1,
        Except.ok id) := by
  simp [complete, hrl, hpre, how]

/-- A successful `tasks.complete` implies the guards passed. -/
theorem complete_ok_inv (db : DB) (u : UserId) (rl : RateLimitStatus)
    (id : Nat) (now : Nat)
    (hok : exceptIsOk (complete db (some u) rl id now).2 = true) :
    rl.ok = true ∧ ∃ t, getTaskById db id = some t ∧ t.userId = u := by
  by_cases hrl : rl.ok
  · refine ⟨hrl, ?_⟩
    cases hg : getTaskById db id with
    | none =>
      exfalso
      simp [complete, hrl, hg, exceptIsOk] at hok
    | some t =>
      refine ⟨t, rfl, ?_⟩
      by_cases how : t.userId = u
      · exact how
      · exfalso
        simp [complete, hrl, hg, how, exceptIsOk] at hok
  · exfalso
    simp [complete, hrl, exceptIsOk] at hok

-- ========================================
-- Claim theorems
-- ========================================

/-- C1: the claim "immediately after any update or complete call the task's
`completedAt` field is set if and only if its status is `completed`" is
false on the code: updating the completed task `aliceDoneTask` back to
`pending` succeeds but leaves `completedAt` set, so the invariant fails on
the resulting task. -/
theorem C1_counterexample :
    (update dbAliceDone (some "alice") rlOk
        (statusOnlyUpdate 0 TaskStatus.pending) 10).2 = Except.ok 0 ∧
    Option.all completedAtInvariantB
      (getTaskById
        (update dbAliceDone (some "alice") rlOk
          (statusOnlyUpdate 0 TaskStatus.pending) 10).1 0) = false := by
  constructor
  · rfl
  · rfl

/-- C1 (amended): immediately after any successful update or complete call,
if the task's status is `completed` then `completedAt` is set (assuming the
task satisfied the invariant beforehand), and a complete call establishes
the full invariant; but an update that changes status away from `completed`
does not clear `completedAt`, so only this forward implication holds. -/
theorem C1_amended (db : DB) (u : UserId) (rl : RateLimitStatus)
    (args : UpdateArgs) (id : Nat) (now : Nat) (t : Task)
    (hpre : getTaskById db args.id = some t)
    (hinv : completedAtInvariantB t = true) :
    (exceptIsOk (update db (some u) rl args now).2 = true →
      Option.all
        (fun s => !(decide (s.status = TaskStatus.completed)) ||
          s.completedAt.isSome)
        (getTaskById (update db (some u) rl args now).1 args.id) = true) ∧
    (exceptIsOk (complete db (some u) rl id now).2 = true →
      Option.all completedAtInvariantB
        (getTaskById (complete db (some u) rl id now).1 id) = true) := by
  have hinv2 : t.completedAt.isSome = decide (t.status = TaskStatus.completed) := by
    simpa [completedAtInvariantB] using hinv
  constructor
  · intro hok
    obtain ⟨hrl, t2, hpre2, how2, hval2⟩ := update_ok_inv db u rl args now hok
    rw [hpre] at hpre2
    injection hpre2 with ht2
    subst ht2
    rw [update_success_shape db u rl args now t hrl hpre how2 hval2,
      getTaskById_createTaskActivity, getTaskById_updateTask, hpre]
    simp only [Option.map_some', Option.all]
    cases hs : args.status with
    | none =>
      simp only [applyTaskPatch, updatePatchArgs, hs, patchField,
        patchOptField, Option.some.injEq, reduceCtorEq, if_neg,
        Bool.false_and, Bool.false_eq_true, if_false]
      simp [hinv2]
    | some s =>
      by_cases hsc : s = TaskStatus.completed
      · subst hsc
        by_cases hts : t.status = TaskStatus.completed
        · simp [applyTaskPatch, updatePatchArgs, hs, patchField,
            patchOptField, hts, hinv2]
        · simp [applyTaskPatch, updatePatchArgs, hs, patchField,
            patchOptField, hts]
      · simp [applyTaskPatch, updatePatchArgs, hs, patchField,
          patchOptField, hsc]
  · intro hok
    obtain ⟨hrl, t2, hpre2, how2⟩ := complete_ok_inv db u rl id now hok
    rw [complete_success_shape db u rl id now t2 hrl hpre2 how2,
      getTaskById_createTaskActivity, getTaskById_completeTask, hpre2]
    simp [completedAtInvariantB]

/-- C1 (amended) at a concrete input: completing the pending task sets
`completedAt`, establishing the invariant. -/
theorem C1_amended_witness :
    getTaskById dbAlicePending (statusOnlyUpdate 0 TaskStatus.completed).id
        = some alicePendingTask ∧
    completedAtInvariantB alicePendingTask = true ∧
    Option.all
      (fun s => !(decide (s.status = TaskStatus.completed)) ||
        s.completedAt.isSome)
      (getTaskById
        (update dbAlicePending (some "alice") rlOk
          (statusOnlyUpdate 0 TaskStatus.completed) 10).1
        (statusOnlyUpdate 0 TaskStatus.completed).id) = true ∧
    Option.all completedAtInvariantB
      (getTaskById (complete dbAlicePending (some "alice") rlOk 0 10).1 0)
        = true := by
  refine ⟨rfl, rfl, ?_, ?_⟩
  · exact (C1_amended dbAlicePending "alice" rlOk
      (statusOnlyUpdate 0 TaskStatus.completed) 0 10 alicePendingTask
      rfl rfl).1 rfl
  · exact (C1_amended dbAlicePending "alice" rlOk
      (statusOnlyUpdate 0 TaskStatus.completed) 0 10 alicePendingTask
      rfl rfl).2 rfl

/-- C3: a `create` call denied by the rate-limit bucket fails carrying the
bucket's retry-after duration and leaves the entire store — in particular
the task and activity tables — unchanged. -/
theorem C3_rate_limited (db : DB) (u : UserId) (rl : RateLimitStatus)
    (args : CreateArgs) (now : Nat) (hrl : rl.ok = false) :
    create db (some u) rl args now =
      (db, Except.error (Err.rateLimited rl.retryAfter)) := by
  simp [create, hrl]

/-- C3 at a concrete input: a denied create against `dbAlicePending` returns
the store untouched and a 250ms retry-after. -/
theorem C3_rate_limited_witness :
    rlDeny.ok = false ∧
    create dbAlicePending (some "alice") rlDeny
        { title := "x", description := none, priority := none,
          dueDate := none, tags := none } 10 =
      (dbAlicePending, Except.error (Err.rateLimited 250)) :=
  ⟨rfl,
    C3_rate_limited dbAlicePending "alice" rlDeny
      { title := "x", description := none, priority := none,
        dueDate := none, tags := none } 10 rfl⟩

/-- C2: any mutating operation — task update, complete or delete, and
comment create, update or delete — called by an authenticated user against
an existing record owned by a different user fails with the Unauthorized
error and leaves the whole store unchanged, regardless of the other
arguments (the ownership check precedes validation and every write). -/
theorem C2_ownership_guard (db : DB) (u : UserId) (rl : RateLimitStatus)
    (args : UpdateArgs) (cid : Nat) (content : String) (now : Nat)
    (t : Task) (c : TaskComment)
    (hrl : rl.ok = true)
    (ht : getTaskById db args.id = some t) (hto : ¬ t.userId = u)
    (hc : getTaskCommentById db cid = some c) (hco : ¬ c.userId = u) :
    update db (some u) rl args now = (db, Except.error Err.unauthorized) ∧
    complete db (some u) rl args.id now =
      (db, Except.error Err.unauthorized) ∧
    remove db (some u) rl args.id now =
      (db, Except.error Err.unauthorized) ∧
    commentsCreate db (some u) rl args.id content now =
      (db, Except.error Err.unauthorized) ∧
    commentsUpdate db (some u) rl cid content now =
      (db, Except.error Err.unauthorized) ∧
    commentsRemove db (some u) rl cid =
      (db, Except.error Err.unauthorized) := by
  refine ⟨?_, ?_, ?_, ?_, ?_, ?_⟩ <;>
    simp [update, complete, remove, commentsCreate, commentsUpdate,
      commentsRemove, hrl, ht, hc, hto, hco]

/-- C2 at a concrete input: as `alice`, updating `bob`'s task fails
Unauthorized with the store untouched, and so does deleting `bob`'s
comment. -/
theorem C2_ownership_guard_witness :
    rlOk.ok = true ∧
    getTaskById dbBobOwned (statusOnlyUpdate 0 TaskStatus.pending).id
        = some bobPendingTask ∧
    ¬ bobPendingTask.userId = "alice" ∧
    getTaskCommentById dbBobOwned 1 = some bobComment ∧
    ¬ bobComment.userId = "alice" ∧
    update dbBobOwned (some "alice") rlOk
        (statusOnlyUpdate 0 TaskStatus.pending) 10 =
      (dbBobOwned, Except.error Err.unauthorized) ∧
    commentsRemove dbBobOwned (some "alice") rlOk 1 =
      (dbBobOwned, Except.error Err.unauthorized) := by
  refine ⟨rfl, rfl, by decide, rfl, by decide, ?_, ?_⟩
  · exact (C2_ownership_guard dbBobOwned "alice" rlOk
      (statusOnlyUpdate 0 TaskStatus.pending) 1 "hello" 10 bobPendingTask
      bobComment rfl rfl (by decide) rfl (by decide)).1
  · exact (C2_ownership_guard dbBobOwned "alice" rlOk
      (statusOnlyUpdate 0 TaskStatus.pending) 1 "hello" 10 bobPendingTask
      bobComment rfl rfl (by decide) rfl (by decide)).2.2.2.2.2

/-- Looking up the task id a db-layer `createTask` just returned yields the
freshly inserted task. -/
theorem getTaskById_createTask (db : DB) (cargs : CreateTaskArgs)
    (now : Nat) :
    getTaskById (createTask db cargs now).1 db.nextId =
      some
        { userId := cargs.userId, title := cargs.title,
          description := cargs.description,
          status := cargs.status.getD TaskStatus.pending,
          priority := cargs.priority.getD TaskPriority.medium,
          dueDate := cargs.dueDate, completedAt := none,
          position := cargs.position, tags := cargs.tags,
          createdAt := now, updatedAt := now } := by
  simp [getTaskById, createTask]

/-- When the guards pass, `tasks.create` inserts at the prior maximum
position plus one and logs one `created` activity record for the new id. -/
theorem create_success_shape (db : DB) (u : UserId) (rl : RateLimitStatus)
    (args : CreateArgs) (now : Nat)
    (hrl : rl.ok = true)
    (hv : (validateTaskInput
      { title := args.title, description := args.description,
        dueDate := args.dueDate, tags := args.tags } now).valid = true) :
    create db (some u) rl args now =
      ((createTaskActivity
          (createTask db
            { userId := u, title := args.title,
              description := args.description, status := none,
              priority := args.priority, dueDate := args.dueDate,
              position := getMaxPositionForUser db u + 1,
              tags := args.tags } now).1
          { taskId := db.nextId, userId := u,
            action := ActivityAction.created, changes := none } now).1,
        Except.ok db.nextId) := by
  simp [create, hrl, hv]
  exact ⟨rfl, rfl⟩

/-- C4: a successful `create` stores the new task at the caller's prior
maximum position plus one; with no prior tasks the maximum is 0, so the
first task gets position 1. -/
theorem C4_create_position (db : DB) (u : UserId) (rl : RateLimitStatus)
    (args : CreateArgs) (now : Nat) (tid : Nat)
    (h : (create db (some u) rl args now).2 = Except.ok tid) :
    (getTaskById (create db (some u) rl args now).1 tid).map
        (fun t => t.position) = some (getMaxPositionForUser db u + 1) ∧
    (getTasksByUser db u = [] →
      (getTaskById (create db (some u) rl args now).1 tid).map
        (fun t => t.position) = some 1) := by
  by_cases hrl : rl.ok
  · by_cases hv : (validateTaskInput
      { title := args.title, description := args.description,
        dueDate := args.dueDate, tags := args.tags } now).valid
    · rw [create_success_shape db u rl args now hrl hv] at h
      have h2 : (Except.ok db.nextId : Except Err Nat) = Except.ok tid := h
      injection h2 with h3
      subst h3
      have hfst : (create db (some u) rl args now).1 =
          (createTaskActivity (createTask db
            { userId := u, title := args.title,
              description := args.description, status := none,
              priority := args.priority, dueDate := args.dueDate,
              position := getMaxPositionForUser db u + 1,
              tags := args.tags } now).1
            { taskId := db.nextId, userId := u,
              action := ActivityAction.created, changes := none } now).1 := by
        rw [create_success_shape db u rl args now hrl hv]
      have hmain :
          (getTaskById (create db (some u) rl args now).1 db.nextId).map
            (fun t => t.position) = some (getMaxPositionForUser db u + 1) := by
        rw [hfst, getTaskById_createTaskActivity, getTaskById_createTask]
        rfl
      refine ⟨hmain, fun hempty => ?_⟩
      rw [hmain]
      simp [getMaxPositionForUser, hempty]
    · exfalso
      simp [create, hrl, hv] at h
  · exfalso
    simp [create, hrl] at h

/-- C4 at a concrete input: with one existing task at position 1, the newly
created task gets position 2. -/
theorem C4_create_position_witness :
    (create dbAlicePending (some "alice") rlOk
        { title := "x", description := none, priority := none,
          dueDate := none, tags := none } 10).2 = Except.ok 1 ∧
    (getTaskById (create dbAlicePending (some "alice") rlOk
        { title := "x", description := none, priority := none,
          dueDate := none, tags := none } 10).1 1).map (fun t => t.position)
      = some (getMaxPositionForUser dbAlicePending "alice" + 1) := by
  refine ⟨by decide, ?_⟩
  exact (C4_create_position dbAlicePending "alice" rlOk
    { title := "x", description := none, priority := none,
      dueDate := none, tags := none } 10 1 (by decide)).1

/-- C5: a successful update whose status argument differs from the task's
prior status appends exactly one audit record in that call; its action is
`completed` when the new status is `completed`, otherwise `status_changed`
with the prior and new status as the change payload. -/
theorem C5_status_change_audit (db : DB) (u : UserId) (rl : RateLimitStatus)
    (args : UpdateArgs) (now : Nat) (t : Task) (s : TaskStatus)
    (hpre : getTaskById db args.id = some t)
    (hs : args.status = some s)
    (hne : ¬ s = t.status)
    (hok : exceptIsOk (update db (some u) rl args now).2 = true) :
    (update db (some u) rl args now).1.taskActivity =
      (db.nextId,
        { taskId := args.id, userId := u,
          action :=
            if s = TaskStatus.completed then ActivityAction.completed
            else ActivityAction.status_changed,
          changes :=
            if s = TaskStatus.completed then none
            else some (ActivityChanges.statusChange t.status s),
          createdAt := now }) :: db.taskActivity := by
  obtain ⟨hrl, t2, hpre2, how2, hval2⟩ := update_ok_inv db u rl args now hok
  rw [hpre] at hpre2
  injection hpre2 with ht2
  subst ht2
  have hfst : (update db (some u) rl args now).1 =
      (createTaskActivity
        (updateTask db args.id (updatePatchArgs args t now) now)
        (updateActivityArgs args.id u args t) now).1 := by
    rw [update_success_shape db u rl args now t hrl hpre how2 hval2]
  rw [hfst, taskActivity_createTaskActivity, nextId_updateTask,
    taskActivity_updateTask]
  by_cases hsc : s = TaskStatus.completed
  · subst hsc
    simp [updateActivityArgs, hs]
  · have hne2 : ¬ t.status = s := fun hx => hne hx.symm
    simp [updateActivityArgs, hs, hsc, hne, hne2]

/-- C5 at a concrete input: moving the pending task to `in_progress` appends
one `status_changed` record with the pending-to-in-progress payload. -/
theorem C5_status_change_audit_witness :
    getTaskById dbAlicePending
        (statusOnlyUpdate 0 TaskStatus.in_progress).id = some alicePendingTask ∧
    (statusOnlyUpdate 0 TaskStatus.in_progress).status
        = some TaskStatus.in_progress ∧
    ¬ TaskStatus.in_progress = alicePendingTask.status ∧
    (update dbAlicePending (some "alice") rlOk
        (statusOnlyUpdate 0 TaskStatus.in_progress) 10).1.taskActivity =
      (dbAlicePending.nextId,
        { taskId := (statusOnlyUpdate 0 TaskStatus.in_progress).id,
          userId := "alice",
          action :=
            if TaskStatus.in_progress = TaskStatus.completed then
              ActivityAction.completed
            else ActivityAction.status_changed,
          changes :=
            if TaskStatus.in_progress = TaskStatus.completed then none
            else some (ActivityChanges.statusChange alicePendingTask.status
              TaskStatus.in_progress),
          createdAt := 10 }) :: dbAlicePending.taskActivity := by
  refine ⟨rfl, rfl, by decide, ?_⟩
  exact C5_status_change_audit dbAlicePending "alice" rlOk
    (statusOnlyUpdate 0 TaskStatus.in_progress) 10 alicePendingTask
    TaskStatus.in_progress rfl rfl (by decide) (by decide)

/-- A batch entry that is missing or foreign makes the ownership loop of
`tasks.reorder` fail. -/
theorem checkReorder_err_of_bad (db : DB) (u : UserId)
    (updates : List (Nat × Int))
    (hbad : updates.any (fun p =>
      match getTaskById db p.1 with
      | none => true
      | some t => !(t.userId == u)) = true) :
    ∃ e, checkReorder db u updates = Except.error e := by
  induction updates with
  | nil => simp at hbad
  | cons q rest ih =>
    rw [List.any_cons] at hbad
    cases hg : getTaskById db q.1 with
    | none => exact ⟨Err.notFound, by simp [checkReorder, hg]⟩
    | some t =>
      by_cases how : t.userId = u
      · have hrest : rest.any (fun p =>
            match getTaskById db p.1 with
            | none => true
            | some t => !(t.userId == u)) = true := by
          rw [Bool.or_eq_true] at hbad
          rcases hbad with hq | hr
          · exfalso
            rw [hg] at hq
            simp [how] at hq
          · exact hr
        obtain ⟨e, he⟩ := ih hrest
        exact ⟨e, by simp [checkReorder, hg, how, he]⟩
      · exact ⟨Err.unauthorized, by simp [checkReorder, hg, how]⟩

/-- C6: a reorder batch containing any reference to a missing task or to a
task owned by a different user fails, and no position of any task in the
batch — the caller's own included — is written: the store is unchanged. -/
theorem C6_reorder_guard (db : DB) (u : UserId) (rl : RateLimitStatus)
    (updates : List (Nat × Int)) (now : Nat)
    (hbad : updates.any (fun p =>
      match getTaskById db p.1 with
      | none => true
      | some t => !(t.userId == u)) = true) :
    (reorder db (some u) rl updates now).1 = db ∧
    exceptIsOk (reorder db (some u) rl updates now).2 = false := by
  by_cases hrl : rl.ok
  · obtain ⟨e, he⟩ := checkReorder_err_of_bad db u updates hbad
    constructor <;> simp [reorder, hrl, he, exceptIsOk]
  · constructor <;> simp [reorder, hrl, exceptIsOk]

/-- C6 at a concrete input: as `alice`, a batch referencing `bob`'s task 0
(and alice's missing task 7) leaves the store unchanged and fails. -/
theorem C6_reorder_guard_witness :
    ([(0, (5 : Int)), (7, 6)].any (fun p =>
      match getTaskById dbBobOwned p.1 with
      | none => true
      | some t => !(t.userId == "alice")) = true) ∧
    (reorder dbBobOwned (some "alice") rlOk [(0, 5), (7, 6)] 10).1
        = dbBobOwned ∧
    exceptIsOk (reorder dbBobOwned (some "alice") rlOk [(0, 5), (7, 6)] 10).2
        = false := by
  refine ⟨by decide, ?_, ?_⟩
  · exact (C6_reorder_guard dbBobOwned "alice" rlOk [(0, 5), (7, 6)] 10
      (by decide)).1
  · exact (C6_reorder_guard dbBobOwned "alice" rlOk [(0, 5), (7, 6)] 10
      (by decide)).2

theorem taskActivity_createTask (db : DB) (cargs : CreateTaskArgs)
    (now : Nat) : (createTask db cargs now).1.taskActivity = db.taskActivity :=
  rfl

/-- Bulk task deletion never touches the activity table. -/
theorem taskActivity_foldl_deleteTask (l : List (Nat × Task)) (db : DB) :
    (l.foldl (fun d p => deleteTask d p.1) db).taskActivity =
      db.taskActivity := by
  induction l generalizing db with
  | nil => rfl
  | cons q rest ih => exact (ih (deleteTask db q.1)).trans rfl

/-- C7: the claim that every task-mutating business operation — the bulk
delete-completed operation included — writes at least one audit record per
affected task is false on the code: `deleteCompleted` deletes the one
completed task of `dbAliceDone` (count 1, task table emptied) yet writes no
activity record at all. -/
theorem C7_counterexample :
    (deleteCompleted dbAliceDone (some "alice") rlOk).2 = Except.ok 1 ∧
    (deleteCompleted dbAliceDone (some "alice") rlOk).1.tasks = [] ∧
    (deleteCompleted dbAliceDone (some "alice") rlOk).1.taskActivity = [] := by
  refine ⟨rfl, rfl, rfl⟩

/-- C7 (amended): every successful single-task operation — create, update,
complete, delete — appends exactly one audit record in that call (for
delete, a `deleted` record referencing the task), but the bulk
delete-completed operation appends none: its activity table is unchanged. -/
theorem C7_amended (db : DB) (u : UserId) (rl : RateLimitStatus)
    (cargs : CreateArgs) (uargs : UpdateArgs) (id : Nat) (now : Nat) :
    (exceptIsOk (create db (some u) rl cargs now).2 = true →
      (create db (some u) rl cargs now).1.taskActivity.length
        = db.taskActivity.length + 1) ∧
    (exceptIsOk (update db (some u) rl uargs now).2 = true →
      (update db (some u) rl uargs now).1.taskActivity.length
        = db.taskActivity.length + 1) ∧
    (exceptIsOk (complete db (some u) rl id now).2 = true →
      (complete db (some u) rl id now).1.taskActivity.length
        = db.taskActivity.length + 1) ∧
    (exceptIsOk (remove db (some u) rl id now).2 = true →
      (remove db (some u) rl id now).1.taskActivity =
        (db.nextId,
          { taskId := id, userId := u, action := ActivityAction.deleted,
            changes := none, createdAt := now }) :: db.taskActivity) ∧
    (exceptIsOk (deleteCompleted db (some u) rl).2 = true →
      (deleteCompleted db (some u) rl).1.taskActivity = db.taskActivity) := by
  refine ⟨?_, ?_, ?_, ?_, ?_⟩
  · intro hok
    by_cases hrl : rl.ok
    · by_cases hv : (validateTaskInput
        { title := cargs.title, description := cargs.description,
          dueDate := cargs.dueDate, tags := cargs.tags } now).valid
      · have hfst : (create db (some u) rl cargs now).1 =
            (createTaskActivity (createTask db
              { userId := u, title := cargs.title,
                description := cargs.description, status := none,
                priority := cargs.priority, dueDate := cargs.dueDate,
                position := getMaxPositionForUser db u + 1,
                tags := cargs.tags } now).1
              { taskId := db.nextId, userId := u,
                action := ActivityAction.created, changes := none } now).1 := by
          rw [create_success_shape db u rl cargs now hrl hv]
        rw [hfst, taskActivity_createTaskActivity, taskActivity_createTask]
        rfl
      · exfalso
        simp [create, hrl, hv, exceptIsOk] at hok
    · exfalso
      simp [create, hrl, exceptIsOk] at hok
  · intro hok
    obtain ⟨hrl, t, hpre, how, hval⟩ := update_ok_inv db u rl uargs now hok
    have hfst : (update db (some u) rl uargs now).1 =
        (createTaskActivity
          (updateTask db uargs.id (updatePatchArgs uargs t now) now)
          (updateActivityArgs uargs.id u uargs t) now).1 := by
      rw [update_success_shape db u rl uargs now t hrl hpre how hval]
    rw [hfst, taskActivity_createTaskActivity, taskActivity_updateTask]
    rfl
  · intro hok
    obtain ⟨hrl, t, hpre, how⟩ := complete_ok_inv db u rl id now hok
    have hfst : (complete db (some u) rl id now).1 =
        (createTaskActivity (completeTask db id now)
          { taskId := id, userId := u, action := ActivityAction.completed,
            changes := none } now).1 := by
      rw [complete_success_shape db u rl id now t hrl hpre how]
    rw [hfst, taskActivity_createTaskActivity]
    rfl
  · intro hok
    by_cases hrl : rl.ok
    · cases hg : getTaskById db id with
      | none =>
        exfalso
        simp [remove, hrl, hg, exceptIsOk] at hok
      | some t =>
        by_cases how : t.userId = u
        · have hfst : (remove db (some u) rl id now).1 =
              deleteTask (createTaskActivity db
                { taskId := id, userId := u,
                  action := ActivityAction.deleted, changes := none } now).1
                id := by
            simp [remove, hrl, hg, how]
          rw [hfst, taskActivity_deleteTask, taskActivity_createTaskActivity]
        · exfalso
          simp [remove, hrl, hg, how, exceptIsOk] at hok
    · exfalso
      simp [remove, hrl, exceptIsOk] at hok
  · intro hok
    by_cases hrl : rl.ok
    · have hfst : (deleteCompleted db (some u) rl).1 =
          ((getTasksByUserAndStatus db u TaskStatus.completed).foldl
            (fun d p => deleteTask d p.1) db) := by
        simp [deleteCompleted, hrl, deleteCompletedTasksByUser]
      rw [hfst, taskActivity_foldl_deleteTask]
    · exfalso
      simp [deleteCompleted, hrl, exceptIsOk] at hok

/-- C7 (amended) at concrete inputs: each single-task operation on
`dbAlicePending` appends one audit record, and the bulk delete-completed
operation leaves the activity table unchanged. -/
theorem C7_amended_witness :
    (create dbAlicePending (some "alice") rlOk
        { title := "x", description := none, priority := none,
          dueDate := none, tags := none } 10).1.taskActivity.length
      = dbAlicePending.taskActivity.length + 1 ∧
    (update dbAlicePending (some "alice") rlOk
        (statusOnlyUpdate 0 TaskStatus.completed) 10).1.taskActivity.length
      = dbAlicePending.taskActivity.length + 1 ∧
    (complete dbAlicePending (some "alice") rlOk 0 10).1.taskActivity.length
      = dbAlicePending.taskActivity.length + 1 ∧
    (remove dbAlicePending (some "alice") rlOk 0 10).1.taskActivity =
      (dbAlicePending.nextId,
        { taskId := 0, userId := "alice", action := ActivityAction.deleted,
          changes := none, createdAt := 10 }) :: dbAlicePending.taskActivity ∧
    (deleteCompleted dbAlicePending (some "alice") rlOk).1.taskActivity
      = dbAlicePending.taskActivity := by
  refine ⟨?_, ?_, ?_, ?_, ?_⟩
  · exact (C7_amended dbAlicePending "alice" rlOk
      { title := "x", description := none, priority := none,
        dueDate := none, tags := none }
      (statusOnlyUpdate 0 TaskStatus.completed) 0 10).1 (by decide)
  · exact (C7_amended dbAlicePending "alice" rlOk
      { title := "x", description := none, priority := none,
        dueDate := none, tags := none }
      (statusOnlyUpdate 0 TaskStatus.completed) 0 10).2.1 (by decide)
  · exact (C7_amended dbAlicePending "alice" rlOk
      { title := "x", description := none, priority := none,
        dueDate := none, tags := none }
      (statusOnlyUpdate 0 TaskStatus.completed) 0 10).2.2.1 (by decide)
  · exact (C7_amended dbAlicePending "alice" rlOk
      { title := "x", description := none, priority := none,
        dueDate := none, tags := none }
      (statusOnlyUpdate 0 TaskStatus.completed) 0 10).2.2.2.1 (by decide)
  · exact (C7_amended dbAlicePending "alice" rlOk
      { title := "x", description := none, priority := none,
        dueDate := none, tags := none }
      (statusOnlyUpdate 0 TaskStatus.completed) 0 10).2.2.2.2 (by decide)

/-- C8: the claim that no Record Access function raises a domain error is
false on the code: with no stored preferences record for `alice`,
`updateUserPreferencesByUser` throws (`User preferences not found`) instead
of returning a null/empty result. -/
theorem C8_counterexample :
    updateUserPreferencesByUser emptyDB "alice" emptyPrefsPatch 5 =
      Except.error Err.notFound := by
  rfl

/-- C8 (amended): Record Access lookups represent absence as a null/empty
result — `getTaskById` of an absent id is `none` — with the single exception
of `updateUserPreferencesByUser`, which succeeds exactly when the user has a
preferences record and raises the not-found domain error otherwise. -/
theorem C8_amended (db : DB) (id : Nat) (u : UserId)
    (patch : UpdateUserPreferencesArgs) (now : Nat)
    (hid : db.tasks.all (fun p => !(p.1 == id)) = true) :
    getTaskById db id = none ∧
    exceptIsOk (updateUserPreferencesByUser db u patch now) =
      (getUserPreferencesByUser db u).isSome := by
  constructor
  · have hfind : db.tasks.find? (fun p => p.1 == id) = none := by
      rw [List.find?_eq_none]
      intro x hx
      have hx2 := (List.all_eq_true.mp hid) x hx
      simp at hx2
      simp [hx2]
    simp [getTaskById, hfind]
  · unfold updateUserPreferencesByUser
    cases hp : getUserPreferencesByUser db u <;> simp [exceptIsOk]

/-- C8 (amended) at a concrete input: id 7 is absent from `dbBobOwned`, so
`getTaskById` returns `none`, and `alice` has no preferences record, so the
by-user preferences update raises rather than succeeding. -/
theorem C8_amended_witness :
    dbBobOwned.tasks.all (fun p => !(p.1 == 7)) = true ∧
    getTaskById dbBobOwned 7 = none ∧
    exceptIsOk (updateUserPreferencesByUser dbBobOwned "alice"
        emptyPrefsPatch 5) =
      (getUserPreferencesByUser dbBobOwned "alice").isSome := by
  refine ⟨by decide, ?_, ?_⟩
  · exact (C8_amended dbBobOwned 7 "alice" emptyPrefsPatch 5 (by decide)).1
  · exact (C8_amended dbBobOwned 7 "alice" emptyPrefsPatch 5 (by decide)).2

/-- C9: the claim that every update call enforces the field constraints on
the provided fields — an empty-string title included — is false on the code:
updating `alicePendingTask` with the empty-string title succeeds and stores
the empty title (violating the 1–200 character constraint) because the
truthiness-gated validation treats the empty string as absent. -/
theorem C9_counterexample :
    (update dbAlicePending (some "alice") rlOk (emptyTitleUpdate 0) 10).2
        = Except.ok 0 ∧
    (getTaskById
        (update dbAlicePending (some "alice") rlOk (emptyTitleUpdate 0) 10).1
        0).map (fun t => t.title) = some "" := by
  refine ⟨rfl, rfl⟩

/-- C9 (amended): an update call runs validation only when a provided field
is truthy (non-empty title or description, non-zero due date, or tags
present); when validation runs and fails, the call fails with the single
message aggregating all violated rules and the store is unchanged — but an
update whose only provided field is an empty-string title skips validation,
succeeds, and writes the empty title. -/
theorem C9_amended (db : DB) (u : UserId) (rl : RateLimitStatus)
    (args : UpdateArgs) (now : Nat) (t : Task)
    (hrl : rl.ok = true)
    (hpre : getTaskById db args.id = some t)
    (howner : t.userId = u)
    (hrun : updateRunsValidation args = true)
    (hinvalid : (validateTaskInput
      { title := effectiveTitle args.title t,
        description := args.description,
        dueDate := args.dueDate, tags := args.tags } now).valid = false) :
    update db (some u) rl args now =
      (db, Except.error (Err.validationFailed (String.intercalate ", "
        (validateTaskInput
          { title := effectiveTitle args.title t,
            description := args.description,
            dueDate := args.dueDate, tags := args.tags } now).errors))) ∧
    ((update db (some u) rl (emptyTitleUpdate args.id) now).2
        = Except.ok args.id ∧
      (getTaskById
          (update db (some u) rl (emptyTitleUpdate args.id) now).1
          args.id).map (fun s => s.title) = some "") := by
  constructor
  · simp [update, hrl, hpre, howner, hrun, hinvalid]
  · have hpre2 : getTaskById db (emptyTitleUpdate args.id).id = some t := hpre
    have hval : (updateRunsValidation (emptyTitleUpdate args.id) &&
        !(validateTaskInput
            { title := effectiveTitle (emptyTitleUpdate args.id).title t,
              description := (emptyTitleUpdate args.id).description,
              dueDate := (emptyTitleUpdate args.id).dueDate,
              tags := (emptyTitleUpdate args.id).tags } now).valid) = false := by
      simp [updateRunsValidation, emptyTitleUpdate, truthyOptStr, truthyOptNat]
    have hshape := update_success_shape db u rl (emptyTitleUpdate args.id) now
      t hrl hpre2 howner hval
    constructor
    · rw [hshape]
      rfl
    · have hfst : (update db (some u) rl (emptyTitleUpdate args.id) now).1 =
          (createTaskActivity
            (updateTask db (emptyTitleUpdate args.id).id
              (updatePatchArgs (emptyTitleUpdate args.id) t now) now)
            (updateActivityArgs (emptyTitleUpdate args.id).id u
              (emptyTitleUpdate args.id) t) now).1 := by
        rw [hshape]
      rw [hfst, getTaskById_createTaskActivity]
      have hid : (emptyTitleUpdate args.id).id = args.id := rfl
      rw [hid, getTaskById_updateTask, hpre]
      simp [applyTaskPatch, updatePatchArgs, emptyTitleUpdate, patchField]

set_option maxRecDepth 4000 in
/-- C9 at a concrete input: an update providing a 250-character title fails
with the aggregated message and leaves the store unchanged. -/
theorem C9_amended_witness :
    rlOk.ok = true ∧
    getTaskById dbAlicePending 0 = some alicePendingTask ∧
    alicePendingTask.userId = "alice" ∧
    updateRunsValidation
      { id := 0, title := some (String.mk (List.replicate 250 'a')),
        description := none, status := none, priority := none,
        dueDate := none, tags := none } = true ∧
    (validateTaskInput
      { title := effectiveTitle (some (String.mk (List.replicate 250 'a')))
          alicePendingTask,
        description := none, dueDate := none, tags := none } 10).valid
      = false ∧
    update dbAlicePending (some "alice") rlOk
        { id := 0, title := some (String.mk (List.replicate 250 'a')),
          description := none, status := none, priority := none,
          dueDate := none, tags := none } 10 =
      (dbAlicePending, Except.error (Err.validationFailed
        (String.intercalate ", "
          (validateTaskInput
            { title := effectiveTitle
                (some (String.mk (List.replicate 250 'a'))) alicePendingTask,
              description := none, dueDate := none, tags := none }
            10).errors))) := by
  refine ⟨rfl, rfl, rfl, by decide, by decide, ?_⟩
  exact (C9_amended dbAlicePending "alice" rlOk
    { id := 0, title := some (String.mk (List.replicate 250 'a')),
      description := none, status := none, priority := none,
      dueDate := none, tags := none } 10 alicePendingTask
    rfl rfl rfl (by decide) (by decide)).1

/-- C10: updating a task whose status is already `completed` with status
`completed` succeeds, still appends exactly one audit record with action
`completed`, and leaves the task's `completedAt` timestamp unchanged, since
no status transition occurred. -/
theorem C10_recomplete (db : DB) (u : UserId) (rl : RateLimitStatus)
    (id : Nat) (now : Nat) (t : Task)
    (hrl : rl.ok = true)
    (hpre : getTaskById db id = some t)
    (how : t.userId = u)
    (hst : t.status = TaskStatus.completed) :
    (update db (some u) rl (statusOnlyUpdate id TaskStatus.completed) now).2
        = Except.ok id ∧
    (update db (some u) rl
        (statusOnlyUpdate id TaskStatus.completed) now).1.taskActivity =
      (db.nextId,
        { taskId := id, userId := u, action := ActivityAction.completed,
          changes := none, createdAt := now }) :: db.taskActivity ∧
    (getTaskById
        (update db (some u) rl
          (statusOnlyUpdate id TaskStatus.completed) now).1 id).map
      (fun s => s.completedAt) = some t.completedAt := by
  have hpre2 : getTaskById db (statusOnlyUpdate id TaskStatus.completed).id
      = some t := hpre
  have hval : (updateRunsValidation (statusOnlyUpdate id TaskStatus.completed)
      && !(validateTaskInput
        { title := effectiveTitle
            (statusOnlyUpdate id TaskStatus.completed).title t,
          description := (statusOnlyUpdate id TaskStatus.completed).description,
          dueDate := (statusOnlyUpdate id TaskStatus.completed).dueDate,
          tags := (statusOnlyUpdate id TaskStatus.completed).tags } now).valid)
      = false := by
    simp [updateRunsValidation, statusOnlyUpdate, truthyOptStr, truthyOptNat]
  have hshape := update_success_shape db u rl
    (statusOnlyUpdate id TaskStatus.completed) now t hrl hpre2 how hval
  have hfst : (update db (some u) rl
      (statusOnlyUpdate id TaskStatus.completed) now).1 =
      (createTaskActivity
        (updateTask db (statusOnlyUpdate id TaskStatus.completed).id
          (updatePatchArgs (statusOnlyUpdate id TaskStatus.completed) t now)
          now)
        (updateActivityArgs (statusOnlyUpdate id TaskStatus.completed).id u
          (statusOnlyUpdate id TaskStatus.completed) t) now).1 := by
    rw [hshape]
  refine ⟨?_, ?_, ?_⟩
  · rw [hshape]
    rfl
  · rw [hfst, taskActivity_createTaskActivity, nextId_updateTask,
      taskActivity_updateTask]
    simp [updateActivityArgs, statusOnlyUpdate]
  · have hid : (statusOnlyUpdate id TaskStatus.completed).id = id := rfl
    rw [hfst, getTaskById_createTaskActivity, hid, getTaskById_updateTask,
      hpre]
    simp [applyTaskPatch, updatePatchArgs, statusOnlyUpdate, patchOptField,
      hst]

/-- C10 at a concrete input: re-completing the already-completed task keeps
`completedAt = 5` and appends one `completed` audit record. -/
theorem C10_recomplete_witness :
    rlOk.ok = true ∧
    getTaskById dbAliceDone 0 = some aliceDoneTask ∧
    aliceDoneTask.userId = "alice" ∧
    aliceDoneTask.status = TaskStatus.completed ∧
    (update dbAliceDone (some "alice") rlOk
        (statusOnlyUpdate 0 TaskStatus.completed) 10).2 = Except.ok 0 ∧
    (getTaskById
        (update dbAliceDone (some "alice") rlOk
          (statusOnlyUpdate 0 TaskStatus.completed) 10).1 0).map
      (fun s => s.completedAt) = some aliceDoneTask.completedAt := by
  refine ⟨rfl, rfl, rfl, rfl, ?_, ?_⟩
  · exact (C10_recomplete dbAliceDone "alice" rlOk 0 10 aliceDoneTask
      rfl rfl rfl rfl).1
  · exact (C10_recomplete dbAliceDone "alice" rlOk 0 10 aliceDoneTask
      rfl rfl rfl rfl).2.2

end TaskApp
